import Mathlib

/-!
# Verification of the `shmr_datasets` library

A shallow embedding of the data model and operations of the
`make-SHMR-datasets` repository (`src/shmr_datasets/data_format.py`,
`io.py`, `utils.py`), together with proofs about the embedded code.

Conventions of the embedding:

* numpy float arrays are modelled as `List ℚ`; Python `float` scalars as `ℚ`
  (`double_powerlaw_shmr`, whose formula involves real exponentiation, is
  modelled over `ℝ`);
* an HDF5 file is modelled as attribute lists plus named groups holding
  named datasets (`HFile`); the filesystem is an association list from
  path strings to files;
* Python functions that can raise are modelled as `Except String`-valued
  functions, the error string carrying the exception message; dataclass
  `__post_init__` validation is modelled by smart constructors `mk...`;
* Python string operations used by the source (`str.startswith`,
  `str.replace`, `int(...)`, `str(i)`, `pathlib.Path.suffix`,
  `str.isalnum`) are given explicit executable models below
  (`pyStartsWith`, `pyReplaceRSI`, `pyParseNat`, `natToStr`, `pySuffix`,
  `pyIsAlnum`); `pyIsAlnum` models the ASCII fragment of Python
  `str.isalnum`.
-/

namespace ShmrDatasets

/- Rational arithmetic must evaluate inside `decide`/`rfl` proofs about
concrete data, so restore the default reducibility of the four
`Batteries` rational operations that are shipped `irreducible`. -/
attribute [local semireducible] Rat.add Rat.mul Rat.sub Rat.inv

/-! ## Model of HDF5 containers and the filesystem -/

/-- An HDF5 attribute value: a string or a floating-point number. -/
inductive AttrVal where
  | ofStr (s : String)
  | ofRat (q : ℚ)
  deriving DecidableEq

/-- An HDF5 dataset: a 1-D numeric array plus attributes. -/
structure HDataset where
  data : List ℚ
  attrs : List (String × AttrVal)
  deriving DecidableEq

/-- An HDF5 group: attributes plus named datasets. -/
structure HGroup where
  attrs : List (String × AttrVal)
  datasets : List (String × HDataset)
  deriving DecidableEq

/-- An HDF5 file: top-level attributes plus named groups.  Group order
models h5py insertion/iteration order. -/
structure HFile where
  attrs : List (String × AttrVal)
  groups : List (String × HGroup)
  deriving DecidableEq

/-- The filesystem: an association list from path strings to HDF5 files. -/
abbrev FileSystem := List (String × HFile)

/-- Name-keyed lookup, modelling HDF5 attribute/member access by name. -/
def alistFind {α : Type} : List (String × α) → String → Option α
  | [], _ => none
  | (k, v) :: rest, key => if k == key then some v else alistFind rest key

/-- Write a file at a path (model of creating/overwriting an HDF5 file). -/
def fsSet (fs : FileSystem) (path : String) (f : HFile) : FileSystem :=
  (path, f) :: fs

/-- Read the file at a path, if present. -/
def fsGet (fs : FileSystem) (path : String) : Option HFile :=
  alistFind fs path

/-- Boolean test for the error case of an `Except`. -/
def isErr {ε α : Type} : Except ε α → Bool
  | .error _ => true
  | .ok _ => false

/-! ## Embedding of `data_format.py` -/

/-- Cosmology parameters (`GalacticusCosmology` dataclass). -/
structure GalacticusCosmology where
  OmegaMatter : ℚ
  OmegaDarkEnergy : ℚ
  OmegaBaryon : ℚ
  HubbleConstant : ℚ
  deriving DecidableEq

/-- Data of one redshift interval (`RedshiftInterval` dataclass). -/
structure RedshiftInterval where
  massHalo : List ℚ
  massStellar : List ℚ
  massStellarError : List ℚ
  massStellarScatter : List ℚ
  massStellarScatterError : List ℚ
  redshiftMinimum : ℚ
  redshiftMaximum : ℚ
  deriving DecidableEq

/-- Number of data points (`RedshiftInterval.n_points` property). -/
def RedshiftInterval.n_points (iv : RedshiftInterval) : ℕ :=
  iv.massHalo.length

/-- Constructor of `RedshiftInterval`, modelling `__post_init__`: all five
arrays must have the same length as the first (`massHalo`), else
`ValueError` is raised. -/
def mkRedshiftInterval (massHalo massStellar massStellarError
    massStellarScatter massStellarScatterError : List ℚ)
    (redshiftMinimum redshiftMaximum : ℚ) : Except String RedshiftInterval :=
  if massStellar.length = massHalo.length ∧
     massStellarError.length = massHalo.length ∧
     massStellarScatter.length = massHalo.length ∧
     massStellarScatterError.length = massHalo.length then
    .ok { massHalo, massStellar, massStellarError, massStellarScatter,
          massStellarScatterError, redshiftMinimum, redshiftMaximum }
  else
    .error "All data arrays must have the same length"

/-- Data of one black-hole redshift interval
(`BlackHoleRedshiftInterval` dataclass). -/
structure BlackHoleRedshiftInterval where
  massHalo : List ℚ
  massBlackHole : List ℚ
  massBlackHoleError : List ℚ
  massBlackHoleScatter : List ℚ
  massBlackHoleScatterError : List ℚ
  redshiftMinimum : ℚ
  redshiftMaximum : ℚ
  deriving DecidableEq

/-- Number of data points (`BlackHoleRedshiftInterval.n_points` property). -/
def BlackHoleRedshiftInterval.n_points (iv : BlackHoleRedshiftInterval) : ℕ :=
  iv.massHalo.length

/-- Constructor of `BlackHoleRedshiftInterval`, modelling `__post_init__`. -/
def mkBlackHoleRedshiftInterval (massHalo massBlackHole massBlackHoleError
    massBlackHoleScatter massBlackHoleScatterError : List ℚ)
    (redshiftMinimum redshiftMaximum : ℚ) :
    Except String BlackHoleRedshiftInterval :=
  if massBlackHole.length = massHalo.length ∧
     massBlackHoleError.length = massHalo.length ∧
     massBlackHoleScatter.length = massHalo.length ∧
     massBlackHoleScatterError.length = massHalo.length then
    .ok { massHalo, massBlackHole, massBlackHoleError, massBlackHoleScatter,
          massBlackHoleScatterError, redshiftMinimum, redshiftMaximum }
  else
    .error "All data arrays must have the same length"

/-- Model of Python `str.isalnum` (ASCII fragment): true iff the string is
non-empty and every character is alphanumeric. -/
def pyIsAlnum (s : List Char) : Bool :=
  !s.isEmpty && s.all Char.isAlphanum

/-- The label check of `GalacticusSHMRData.__post_init__` /
`GalacticusBHMRData.__post_init__`:
`label.replace('_', '').replace('-', '').isalnum()` (replacing every
occurrence of a character by the empty string is removal, i.e. a filter). -/
def labelOk (label : String) : Bool :=
  pyIsAlnum ((label.data.filter (fun c => c != '_')).filter (fun c => c != '-'))

/-- The SHMR dataset record (`GalacticusSHMRData` dataclass). -/
structure GalacticusSHMRData where
  redshift_intervals : List RedshiftInterval
  cosmology : GalacticusCosmology
  haloMassDefinition : String
  label : String
  reference : String
  deriving DecidableEq

/-- Constructor of `GalacticusSHMRData`, modelling `__post_init__`: the
interval list must be non-empty and the label space-free. -/
def mkGalacticusSHMRData (redshift_intervals : List RedshiftInterval)
    (cosmology : GalacticusCosmology) (haloMassDefinition label reference :
    String) : Except String GalacticusSHMRData :=
  if redshift_intervals.isEmpty then
    .error "At least one redshift interval is required"
  else if !(labelOk label) then
    .error "Label should be space-free (alphanumeric, underscore, hyphen only)"
  else
    .ok { redshift_intervals, cosmology, haloMassDefinition, label, reference }

/-- Number of redshift intervals (`n_redshift_intervals` property). -/
def GalacticusSHMRData.n_redshift_intervals (d : GalacticusSHMRData) : ℕ :=
  d.redshift_intervals.length

/-- Total number of data points (`total_data_points` property). -/
def GalacticusSHMRData.total_data_points (d : GalacticusSHMRData) : ℕ :=
  (d.redshift_intervals.map RedshiftInterval.n_points).sum

/-- Full redshift range (`redshift_range` property). -/
def GalacticusSHMRData.redshift_range (d : GalacticusSHMRData) : ℚ × ℚ :=
  match d.redshift_intervals with
  | [] => (0, 0)
  | iv :: rest =>
    (rest.foldl (fun m i => min m i.redshiftMinimum) iv.redshiftMinimum,
     rest.foldl (fun m i => max m i.redshiftMaximum) iv.redshiftMaximum)

/-- The BHMR dataset record (`GalacticusBHMRData` dataclass). -/
structure GalacticusBHMRData where
  redshift_intervals : List BlackHoleRedshiftInterval
  cosmology : GalacticusCosmology
  haloMassDefinition : String
  label : String
  reference : String
  deriving DecidableEq

/-- Constructor of `GalacticusBHMRData`, modelling `__post_init__`. -/
def mkGalacticusBHMRData (redshift_intervals : List BlackHoleRedshiftInterval)
    (cosmology : GalacticusCosmology) (haloMassDefinition label reference :
    String) : Except String GalacticusBHMRData :=
  if redshift_intervals.isEmpty then
    .error "At least one redshift interval is required"
  else if !(labelOk label) then
    .error "Label should be space-free (alphanumeric, underscore, hyphen only)"
  else
    .ok { redshift_intervals, cosmology, haloMassDefinition, label, reference }

/-- The standard halo mass definitions (`GALACTICUS_HALO_MASS_DEFINITIONS`). -/
def GALACTICUS_HALO_MASS_DEFINITIONS : List String :=
  ["spherical collapse",
   "virial",
   "Bryan & Norman (1998)",
   "200 * mean density",
   "200 * critical density",
   "500 * mean density",
   "500 * critical density",
   "1000 * mean density",
   "1000 * critical density"]

/-- Dataset description strings (`DATASET_DESCRIPTIONS`). -/
def DATASET_DESCRIPTIONS : List (String × String) :=
  [("massHalo", "Halo mass"),
   ("massStellar", "Stellar mass"),
   ("massStellarError", "Uncertainty in stellar mass"),
   ("massStellarScatter", "Intrinsic scatter in stellar mass"),
   ("massStellarScatterError", "Uncertainty in intrinsic scatter"),
   ("massBlackHole", "Black hole mass"),
   ("massBlackHoleError", "Uncertainty in black hole mass"),
   ("massBlackHoleScatter", "Intrinsic scatter in black hole mass"),
   ("massBlackHoleScatterError", "Uncertainty in intrinsic scatter")]

/-- `UNITS_IN_SI["Msun"] = 1.98847e30` (exact as a rational). -/
def UNITS_IN_SI_Msun : ℚ := 198847 * 10 ^ 25

/-- `UNITS_IN_SI["dex"] = 1.0`. -/
def UNITS_IN_SI_dex : ℚ := 1

/-- `validate_halo_mass_definition`: membership in the standard list. -/
def validate_halo_mass_definition (definition : String) : Bool :=
  GALACTICUS_HALO_MASS_DEFINITIONS.contains definition

/-! ## Models of the Python string and path operations used by `io.py` -/

/-- The character of one decimal digit. -/
def digitChar (d : ℕ) : Char := Char.ofNat (48 + d)

/-- Decimal digits of a natural number, most significant first
(model of Python `str(i)` for a non-negative index `i`). -/
def natDigits (n : ℕ) : List Char :=
  if n < 10 then [digitChar n]
  else natDigits (n / 10) ++ [digitChar (n % 10)]
  decreasing_by omega

/-- Decimal rendering of a natural number. -/
def natToStr (n : ℕ) : String := ⟨natDigits n⟩

/-- Value of a digit string under the usual left fold. -/
def parseDigits (s : List Char) : ℕ :=
  s.foldl (fun a c => 10 * a + (c.toNat - 48)) 0

/-- Model of Python `int(s)` restricted to plain digit strings; on any
other string `int` raises `ValueError`, modelled as `none`. -/
def pyParseNat (s : List Char) : Option ℕ :=
  if !s.isEmpty && s.all Char.isDigit then some (parseDigits s) else none

/-- Model of Python `str.startswith`. -/
def pyStartsWith (s pre : String) : Bool := pre.data.isPrefixOf s.data

/-- The pattern removed by the loader: `'redshiftInterval'` (16 characters). -/
def rsiPattern : List Char := "redshiftInterval".data

/-- Model of Python `name.replace('redshiftInterval', '')`: removes every
occurrence of the pattern, scanning left to right. -/
def pyReplaceRSI : List Char → List Char
  | [] => []
  | c :: cs =>
    if rsiPattern.isPrefixOf (c :: cs) then pyReplaceRSI (List.drop 15 cs)
    else c :: pyReplaceRSI cs
  termination_by s => s.length
  decreasing_by
  · simp; omega
  · simp

/-- Model of `pathlib.Path(...).suffix`: the extension of the final path
component, taken from its last dot; empty when the name has no dot, when
the dot is the first character, or when the dot is the last character. -/
def pySuffix (p : String) : String :=
  let name := (p.data.reverse.takeWhile (fun c => c != '/')).reverse
  let revName := name.reverse
  let afterDot := revName.takeWhile (fun c => c != '.')
  if afterDot.length < revName.length then
    if 0 < name.length - 1 - afterDot.length ∧
       name.length - 1 - afterDot.length < name.length - 1 then
      ⟨'.' :: afterDot.reverse⟩
    else ""
  else ""

/-- Insertion of an element into a key-sorted list. -/
def insertByKey {α β : Type} [LinearOrder β] (key : α → β) (a : α) :
    List α → List α
  | [] => [a]
  | b :: l => if key a < key b then a :: b :: l else b :: insertByKey key a l

/-- Sort by a key (model of Python `list.sort(key=...)` and of the
argsort performed by `scipy.interpolate.interp1d`). -/
def sortByKey {α β : Type} [LinearOrder β] (key : α → β) : List α → List α
  | [] => []
  | a :: l => insertByKey key a (sortByKey key l)

/-- Model of Python `'Scatter' in name` (substring test). -/
def pyContainsScatter (name : String) : Bool :=
  name.data.tails.any (fun t => "Scatter".data.isPrefixOf t)

/-! ## Embedding of `io.py`: `save_galacticus_shmr` -/

/-- Attributes attached by `save_galacticus_shmr` to one dataset: a
description when the name has one in `DATASET_DESCRIPTIONS`, then a
`unitsInSI` factor (`Msun` for the three mass columns, `dex` for names
containing `Scatter`). -/
def datasetAttrs (name : String) : List (String × AttrVal) :=
  (match alistFind DATASET_DESCRIPTIONS name with
   | some desc => [("description", AttrVal.ofStr desc)]
   | none => []) ++
  (if name == "massHalo" || name == "massStellar" || name == "massStellarError"
   then [("unitsInSI", AttrVal.ofRat UNITS_IN_SI_Msun)]
   else if pyContainsScatter name then
     [("unitsInSI", AttrVal.ofRat UNITS_IN_SI_dex)]
   else [])

/-- The `redshiftIntervalN` group written for one interval. -/
def renderInterval (iv : RedshiftInterval) : HGroup :=
  { attrs := [("redshiftMinimum", AttrVal.ofRat iv.redshiftMinimum),
              ("redshiftMaximum", AttrVal.ofRat iv.redshiftMaximum)],
    datasets :=
      [("massHalo",
        { data := iv.massHalo, attrs := datasetAttrs "massHalo" }),
       ("massStellar",
        { data := iv.massStellar, attrs := datasetAttrs "massStellar" }),
       ("massStellarError",
        { data := iv.massStellarError, attrs := datasetAttrs "massStellarError" }),
       ("massStellarScatter",
        { data := iv.massStellarScatter,
          attrs := datasetAttrs "massStellarScatter" }),
       ("massStellarScatterError",
        { data := iv.massStellarScatterError,
          attrs := datasetAttrs "massStellarScatterError" })] }

/-- The interval groups written by `for i, interval in enumerate(...)`,
named `redshiftInterval0`, `redshiftInterval1`, ... -/
def renderIntervals : ℕ → List RedshiftInterval → List (String × HGroup)
  | _, [] => []
  | i, iv :: rest =>
    ("redshiftInterval" ++ natToStr i, renderInterval iv) ::
      renderIntervals (i + 1) rest

/-- The complete HDF5 file written by `save_galacticus_shmr`. -/
def renderFile (d : GalacticusSHMRData) : HFile :=
  { attrs := [("haloMassDefinition", AttrVal.ofStr d.haloMassDefinition),
              ("label", AttrVal.ofStr d.label),
              ("reference", AttrVal.ofStr d.reference)],
    groups :=
      ("cosmology",
        { attrs := [("OmegaMatter", AttrVal.ofRat d.cosmology.OmegaMatter),
                    ("OmegaDarkEnergy", AttrVal.ofRat d.cosmology.OmegaDarkEnergy),
                    ("OmegaBaryon", AttrVal.ofRat d.cosmology.OmegaBaryon),
                    ("HubbleConstant", AttrVal.ofRat d.cosmology.HubbleConstant)],
          datasets := [] }) :: renderIntervals 0 d.redshift_intervals }

/-- `save_galacticus_shmr`: validates the extension and the halo mass
definition (both `ValueError`s are raised before `mkdir` and before the
file is opened), then writes the rendered file at the path. -/
def save_galacticus_shmr (fs : FileSystem) (data : GalacticusSHMRData)
    (filepath : String) : Except String FileSystem :=
  if pySuffix filepath != ".hdf5" then
    .error "Galacticus format requires .hdf5 extension"
  else if !(validate_halo_mass_definition data.haloMassDefinition) then
    .error ("Invalid halo mass definition: " ++ data.haloMassDefinition)
  else
    .ok (fsSet fs filepath (renderFile data))

/-- Filesystem-passing form of `save_galacticus_shmr`: the first component
is the filesystem after the call.  On error the source raises before
`mkdir` and before opening the file, so the filesystem is unchanged. -/
def save_galacticus_shmr_st (fs : FileSystem) (data : GalacticusSHMRData)
    (filepath : String) : FileSystem × Option String :=
  match save_galacticus_shmr fs data filepath with
  | .ok fs2 => (fs2, none)
  | .error e => (fs, some e)

/-! ## Embedding of `io.py`: `load_galacticus_shmr` -/

/-- Sequencing of fallible steps (a raised exception propagates). -/
def bindE {α β : Type} (x : Except String α) (f : α → Except String β) :
    Except String β :=
  match x with
  | .error e => .error e
  | .ok a => f a

/-- Fallible map over a list, left to right, stopping at the first raised
exception (a Python `for` loop building a list). -/
def mapExcept {α β : Type} (f : α → Except String β) :
    List α → Except String (List β)
  | [] => .ok []
  | a :: l => bindE (f a) fun b => bindE (mapExcept f l) fun bs => .ok (b :: bs)

/-- Read of a string-valued attribute (the loader assigns it to a string
field; a missing attribute raises `KeyError`). -/
def getAttrStr (attrs : List (String × AttrVal)) (key : String) :
    Except String String :=
  match alistFind attrs key with
  | some (.ofStr s) => .ok s
  | some (.ofRat _) => .error ("attribute has non-string type: " ++ key)
  | none => .error ("KeyError: " ++ key)

/-- Read of a float-valued attribute. -/
def getAttrRat (attrs : List (String × AttrVal)) (key : String) :
    Except String ℚ :=
  match alistFind attrs key with
  | some (.ofRat q) => .ok q
  | some (.ofStr _) => .error ("attribute has non-float type: " ++ key)
  | none => .error ("KeyError: " ++ key)

/-- Read of a dataset from a group (`np.array(group[name])`). -/
def getDataset (g : HGroup) (name : String) : Except String (List ℚ) :=
  match alistFind g.datasets name with
  | some ds => .ok ds.data
  | none => .error ("KeyError: " ++ name)

/-- One iteration of the interval loop of `load_galacticus_shmr`: read the
two bound attributes and the five datasets, then construct the interval
through the validating constructor. -/
def readInterval (g : HGroup) : Except String RedshiftInterval :=
  bindE (getAttrRat g.attrs "redshiftMinimum") fun redshiftMinimum =>
  bindE (getAttrRat g.attrs "redshiftMaximum") fun redshiftMaximum =>
  bindE (getDataset g "massHalo") fun massHalo =>
  bindE (getDataset g "massStellar") fun massStellar =>
  bindE (getDataset g "massStellarError") fun massStellarError =>
  bindE (getDataset g "massStellarScatter") fun massStellarScatter =>
  bindE (getDataset g "massStellarScatterError") fun massStellarScatterError =>
  mkRedshiftInterval massHalo massStellar massStellarError massStellarScatter
    massStellarScatterError redshiftMinimum redshiftMaximum

/-- The sort key of `load_galacticus_shmr`:
`int(x.replace('redshiftInterval', ''))`; `none` models `int` raising. -/
def intervalKey (name : String) : Option ℕ :=
  pyParseNat (pyReplaceRSI name.data)

/-- `load_galacticus_shmr`: read the file at the path, its top-level
attributes and cosmology group, then every group whose name starts with
`redshiftInterval`, sorted by integer suffix, rebuilding the record
through the validating constructors. -/
def load_galacticus_shmr (fs : FileSystem) (filepath : String) :
    Except String GalacticusSHMRData :=
  match fsGet fs filepath with
  | none => .error ("File not found: " ++ filepath)
  | some f =>
    bindE (getAttrStr f.attrs "haloMassDefinition") fun haloMassDefinition =>
    bindE (getAttrStr f.attrs "label") fun label =>
    bindE (getAttrStr f.attrs "reference") fun reference =>
    bindE (match alistFind f.groups "cosmology" with
           | some g => .ok g
           | none => .error "KeyError: cosmology") fun cosmoGroup =>
    bindE (getAttrRat cosmoGroup.attrs "OmegaMatter") fun OmegaMatter =>
    bindE (getAttrRat cosmoGroup.attrs "OmegaDarkEnergy") fun OmegaDarkEnergy =>
    bindE (getAttrRat cosmoGroup.attrs "OmegaBaryon") fun OmegaBaryon =>
    bindE (getAttrRat cosmoGroup.attrs "HubbleConstant") fun HubbleConstant =>
    let cosmology : GalacticusCosmology :=
      { OmegaMatter, OmegaDarkEnergy, OmegaBaryon, HubbleConstant }
    let pairs := f.groups.filter (fun p => pyStartsWith p.1 "redshiftInterval")
    bindE (mapExcept (fun p =>
            match intervalKey p.1 with
            | some k => Except.ok (k, p.2)
            | none => Except.error "invalid literal for int()") pairs)
      fun keyed =>
    let sorted := sortByKey Prod.fst keyed
    bindE (mapExcept (fun q => readInterval q.2) sorted)
      fun redshift_intervals =>
    mkGalacticusSHMRData redshift_intervals cosmology haloMassDefinition
      label reference

/-! ## Embedding of `io.py`: `validate_galacticus_file` -/

/-- The result dictionary of `validate_galacticus_file`. -/
structure VResults where
  valid : Bool
  errors : List String
  warnings : List String
  deriving DecidableEq

/-- `results['valid'] = False` paired with `results['errors'].append(msg)`
(the source always performs the two together). -/
def addError (r : VResults) (msg : String) : VResults :=
  { valid := false, errors := r.errors ++ [msg], warnings := r.warnings }

/-- `results['warnings'].append(msg)`. -/
def addWarning (r : VResults) (msg : String) : VResults :=
  { r with warnings := r.warnings ++ [msg] }

/-- String rendering of an attribute value as used in messages. -/
def attrValStr : AttrVal → String
  | .ofStr s => s
  | .ofRat q => toString q

/-- Check of the three required top-level attributes. -/
def checkTopAttrs (f : HFile) (r : VResults) : VResults :=
  ["haloMassDefinition", "label", "reference"].foldl
    (fun r attr =>
      if (alistFind f.attrs attr).isNone then
        addError r ("Missing required attribute: " ++ attr)
      else r) r

/-- Warning for a non-standard halo mass definition. -/
def checkHaloDef (f : HFile) (r : VResults) : VResults :=
  match alistFind f.attrs "haloMassDefinition" with
  | some v =>
    if !(validate_halo_mass_definition (attrValStr v)) then
      addWarning r ("Non-standard halo mass definition: " ++ attrValStr v)
    else r
  | none => r

/-- Check of the cosmology group and its four required attributes. -/
def checkCosmology (f : HFile) (r : VResults) : VResults :=
  match alistFind f.groups "cosmology" with
  | none => addError r "Missing required cosmology group"
  | some cg =>
    ["OmegaMatter", "OmegaDarkEnergy", "OmegaBaryon", "HubbleConstant"].foldl
      (fun r attr =>
        if (alistFind cg.attrs attr).isNone then
          addError r ("Missing cosmology attribute: " ++ attr)
        else r) r

/-- The required datasets of each interval group, in check order. -/
def requiredDatasets : List String :=
  ["massHalo", "massStellar", "massStellarError", "massStellarScatter",
   "massStellarScatterError"]

/-- The recommended-attribute warnings on one present dataset. -/
def checkDatasetAttrWarnings (gname dsname : String) (ds : HDataset)
    (r : VResults) : VResults :=
  let r := if (alistFind ds.attrs "description").isNone then
      addWarning r ("Missing description for " ++ dsname ++ " in " ++ gname)
    else r
  if (alistFind ds.attrs "unitsInSI").isNone then
    addWarning r ("Missing unitsInSI for " ++ dsname ++ " in " ++ gname)
  else r

/-- One iteration of the dataset loop of the validator.  The state is the
results so far and the local `expected_length`, unbound (`none`) until a
`massHalo` dataset has been seen; comparing a length against the unbound
`expected_length` raises `UnboundLocalError` (a `NameError`) — the
`Except.error` branch, carrying the results accumulated so far.  The
message text attached at the catch site below models `str(e)`, whose
exact wording varies with the Python version. -/
def checkDataset (gname : String) (g : HGroup) (st : VResults × Option ℕ)
    (dsname : String) : Except VResults (VResults × Option ℕ) :=
  match alistFind g.datasets dsname with
  | none =>
    .ok (addError st.1 ("Missing dataset " ++ dsname ++ " in " ++ gname), st.2)
  | some ds =>
    if dsname == "massHalo" then
      .ok (checkDatasetAttrWarnings gname dsname ds st.1, some ds.data.length)
    else
      match st.2 with
      | none => .error st.1
      | some n =>
        let r := if ds.data.length ≠ n then
            addError st.1 ("Dataset " ++ dsname ++ " has wrong length in " ++
              gname)
          else st.1
        .ok (checkDatasetAttrWarnings gname dsname ds r, some n)

/-- Fold of a fallible step over a list (a Python `for` loop in which a
raised exception aborts the whole traversal). -/
def foldExcept {σ ε α : Type} (f : σ → α → Except ε σ) :
    σ → List α → Except ε σ
  | s, [] => .ok s
  | s, a :: l =>
    match f s a with
    | .error e => .error e
    | .ok s2 => foldExcept f s2 l

/-- Check of one interval group: the two redshift-bound attributes, then
the five required datasets. -/
def checkGroup (st : VResults × Option ℕ) (p : String × HGroup) :
    Except VResults (VResults × Option ℕ) :=
  let r := ["redshiftMinimum", "redshiftMaximum"].foldl
    (fun r attr =>
      if (alistFind p.2.attrs attr).isNone then
        addError r ("Missing attribute " ++ attr ++ " in " ++ p.1)
      else r) st.1
  foldExcept (fun st2 ds => checkDataset p.1 p.2 st2 ds) (r, st.2)
    requiredDatasets

/-- The checks preceding the interval-group loop: the three top-level
attributes, the halo-definition warning, the cosmology group, and the
presence of at least one `redshiftInterval*` group. -/
def validatePrelim (f : HFile) : VResults :=
  let r : VResults := { valid := true, errors := [], warnings := [] }
  let r := checkTopAttrs f r
  let r := checkHaloDef f r
  let r := checkCosmology f r
  if (f.groups.filter (fun p => pyStartsWith p.1 "redshiftInterval")).isEmpty
  then addError r "No redshift intervals found"
  else r

/-- `validate_galacticus_file`: never raises; checks every required
attribute, group and dataset, accumulating errors and warnings; the
surrounding `try` converts any exception raised while reading into a
final `Error reading file: ...` entry. -/
def validate_galacticus_file (filepath : String) (fs : FileSystem) :
    VResults :=
  match fsGet fs filepath with
  | none =>
    { valid := false, errors := ["File not found: " ++ filepath],
      warnings := [] }
  | some f =>
    match foldExcept checkGroup (validatePrelim f, none)
        (f.groups.filter (fun p => pyStartsWith p.1 "redshiftInterval")) with
    | .ok (r2, _) => r2
    | .error r2 =>
      addError r2
        "Error reading file: name \x27expected_length\x27 is not defined"

/-- The invariant relating the valid flag to the error list. -/
def VOk (r : VResults) : Prop := r.valid = true ↔ r.errors = []

/-! ## Embedding of `utils.py`: linear interpolation and `interpolate_shmr` -/

/-- Linear interpolation over points sorted by abscissa (the
`kind="linear"` rule of `scipy.interpolate.interp1d`): each query uses
the segment that brackets it; queries below the range use the first
segment and queries above it the last (`fill_value="extrapolate"`). -/
def interpLinear : List (ℚ × ℚ) → ℚ → ℚ
  | [], _ => 0
  | [(_, y0)], _ => y0
  | (x0, y0) :: (x1, y1) :: rest, q =>
    if q ≤ x1 || rest.isEmpty then y0 + (y1 - y0) * (q - x0) / (x1 - x0)
    else interpLinear ((x1, y1) :: rest) q

/-- `interp1d(x, y, kind="linear", bounds_error=not extrapolate,
fill_value=...)` applied to an array of queries: fewer than two points is
a `ValueError`; with `bounds_error=True` any query outside the data range
raises; otherwise out-of-range queries are linearly extrapolated. -/
def interp1dLinear (x y : List ℚ) (extrapolate : Bool) (queries : List ℚ) :
    Except String (List ℚ) :=
  if x.length < 2 then
    .error "x and y arrays must have at least 2 entries"
  else
    let pts := sortByKey Prod.fst (x.zip y)
    let xmin := (pts.headI).1
    let xmax := (pts.getLastD (0, 0)).1
    if !extrapolate && queries.any (fun q => decide (q < xmin ∨ xmax < q)) then
      .error "A value in x_new is out of the interpolation range"
    else
      .ok (queries.map (interpLinear pts))

/-- A default interval value (used only for the guarded list index). -/
def defaultInterval : RedshiftInterval :=
  { massHalo := [], massStellar := [], massStellarError := [],
    massStellarScatter := [], massStellarScatterError := [],
    redshiftMinimum := 0, redshiftMaximum := 0 }

/-- `interpolate_shmr` (the default `method="linear"` branch of the
source; the record construction is shared by every method branch):
interpolate the four data columns of the chosen interval onto new halo
masses and build a fresh record through the validating constructors. -/
def interpolate_shmr (shmr_data : GalacticusSHMRData)
    (new_halo_masses : List ℚ) (redshift_interval_index : ℕ)
    (extrapolate : Bool) : Except String GalacticusSHMRData :=
  if shmr_data.redshift_intervals.length ≤ redshift_interval_index then
    .error "Redshift interval index out of range"
  else
    let interval :=
      shmr_data.redshift_intervals.getD redshift_interval_index
        defaultInterval
    bindE (interp1dLinear interval.massHalo interval.massStellar extrapolate
        new_halo_masses) fun new_stellar_masses =>
    bindE (interp1dLinear interval.massHalo interval.massStellarError
        extrapolate new_halo_masses) fun new_errors =>
    bindE (interp1dLinear interval.massHalo interval.massStellarScatter
        extrapolate new_halo_masses) fun new_scatter =>
    bindE (interp1dLinear interval.massHalo interval.massStellarScatterError
        extrapolate new_halo_masses) fun new_scatter_errors =>
    bindE (mkRedshiftInterval new_halo_masses new_stellar_masses new_errors
        new_scatter new_scatter_errors interval.redshiftMinimum
        interval.redshiftMaximum) fun new_interval =>
    mkGalacticusSHMRData [new_interval] shmr_data.cosmology
      shmr_data.haloMassDefinition
      (shmr_data.label ++ "_interpolated")
      (shmr_data.reference ++ " (interpolated using linear method)")

/-! ## Object-state-passing forms (for the no-mutation claim)

The second component of each result is the argument record after the
call.  The source bodies contain no assignment to the argument record or
to any of its interval objects, so the translation returns the argument
unchanged; `interpolate_shmr` builds its result exclusively out of fresh
objects. -/

/-- `save_galacticus_shmr`, with the record state threaded. -/
def save_galacticus_shmr_rec_st (fs : FileSystem) (data : GalacticusSHMRData)
    (filepath : String) :
    Except String FileSystem × GalacticusSHMRData :=
  (save_galacticus_shmr fs data filepath, data)

/-- `interpolate_shmr`, with the record state threaded. -/
def interpolate_shmr_st (shmr_data : GalacticusSHMRData)
    (new_halo_masses : List ℚ) (redshift_interval_index : ℕ)
    (extrapolate : Bool) :
    Except String GalacticusSHMRData × GalacticusSHMRData :=
  (interpolate_shmr shmr_data new_halo_masses redshift_interval_index
    extrapolate, shmr_data)

/-- `n_redshift_intervals`, with the record state threaded. -/
def n_redshift_intervals_st (d : GalacticusSHMRData) :
    ℕ × GalacticusSHMRData :=
  (d.n_redshift_intervals, d)

/-- `total_data_points`, with the record state threaded. -/
def total_data_points_st (d : GalacticusSHMRData) :
    ℕ × GalacticusSHMRData :=
  (d.total_data_points, d)

/-- `redshift_range`, with the record state threaded. -/
def redshift_range_st (d : GalacticusSHMRData) :
    (ℚ × ℚ) × GalacticusSHMRData :=
  (d.redshift_range, d)

/-! ## Embedding of `utils.py`: `double_powerlaw_shmr`

Python floats are modelled as real numbers here because the formula uses
real exponentiation with fractional exponents. -/

/-- `double_powerlaw_shmr`: start from `np.zeros_like(halo_mass)`, assign
`ms_norm * x**alpha_low` on the mask `halo_mass < mh_norm`, then
`ms_norm * x**alpha_high` on the mask `halo_mass >= mh_norm`, where
`x = halo_mass / mh_norm`. -/
noncomputable def double_powerlaw_shmr (halo_mass : List ℝ)
    (ms_norm mh_norm alpha_low alpha_high : ℝ) : List ℝ :=
  let stellar0 := halo_mass.map (fun _ => (0 : ℝ))
  let stellar1 := (halo_mass.zip stellar0).map
    (fun p => if p.1 < mh_norm then ms_norm * (p.1 / mh_norm) ^ alpha_low
      else p.2)
  let stellar2 := (halo_mass.zip stellar1).map
    (fun p => if mh_norm ≤ p.1 then ms_norm * (p.1 / mh_norm) ^ alpha_high
      else p.2)
  stellar2

/-! ## Derived notions used to state the claims -/

/-- The invariant established by `RedshiftInterval.__post_init__`: the four
other arrays have the length of `massHalo`. -/
def RedshiftInterval.Wf (iv : RedshiftInterval) : Prop :=
  iv.massStellar.length = iv.massHalo.length ∧
  iv.massStellarError.length = iv.massHalo.length ∧
  iv.massStellarScatter.length = iv.massHalo.length ∧
  iv.massStellarScatterError.length = iv.massHalo.length

/-- The invariant established by construction of a `GalacticusSHMRData`
record: a non-empty interval list, a space-free label, and intervals that
each passed their own constructor. -/
def GalacticusSHMRData.Wf (d : GalacticusSHMRData) : Prop :=
  d.redshift_intervals ≠ [] ∧ labelOk d.label = true ∧
  ∀ iv ∈ d.redshift_intervals, iv.Wf

/-- Ordered-and-non-overlapping intervals, as asserted by the spec: each
interval ends no later than the next one starts. -/
def intervalsOrdered (l : List RedshiftInterval) : Prop :=
  List.Chain' (fun a b => a.redshiftMaximum ≤ b.redshiftMinimum) l

/-- `create_example_cosmology` (Planck 2018 values, exact as rationals). -/
def create_example_cosmology : GalacticusCosmology :=
  { OmegaMatter := 3111 / 10000, OmegaDarkEnergy := 6889 / 10000,
    OmegaBaryon := 4897 / 100000, HubbleConstant := 6766 / 100 }

/-- The interval groups written by `save_galacticus_shmr`, paired with
their integer suffixes (the intermediate value of the loader after key
extraction). -/
def keyedRender : ℕ → List RedshiftInterval → List (ℕ × HGroup)
  | _, [] => []
  | i, iv :: rest => (i, renderInterval iv) :: keyedRender (i + 1) rest

/-! ## Concrete inputs used by witnesses and counterexamples -/

/-- A well-formed example interval. -/
def exInterval : RedshiftInterval :=
  { massHalo := [1, 2], massStellar := [10, 20], massStellarError := [1, 2],
    massStellarScatter := [3, 4], massStellarScatterError := [5, 6],
    redshiftMinimum := 0, redshiftMaximum := 1 / 2 }

/-- A well-formed example record. -/
def exData : GalacticusSHMRData :=
  { redshift_intervals := [exInterval], cosmology := create_example_cosmology,
    haloMassDefinition := "virial", label := "A", reference := "r" }

/-- The record produced by interpolating `exData` onto the single halo
mass `3/2`. -/
def exInterp : GalacticusSHMRData :=
  { redshift_intervals :=
      [{ massHalo := [3 / 2], massStellar := [15], massStellarError := [3 / 2],
         massStellarScatter := [7 / 2], massStellarScatterError := [11 / 2],
         redshiftMinimum := 0, redshiftMaximum := 1 / 2 }],
    cosmology := create_example_cosmology, haloMassDefinition := "virial",
    label := "A_interpolated",
    reference := "r (interpolated using linear method)" }

/-- An interval lying at higher redshift than `unordInterval2`. -/
def unordInterval1 : RedshiftInterval :=
  { massHalo := [1], massStellar := [1], massStellarError := [1],
    massStellarScatter := [1], massStellarScatterError := [1],
    redshiftMinimum := 1, redshiftMaximum := 2 }

/-- An interval lying at lower redshift than `unordInterval1`. -/
def unordInterval2 : RedshiftInterval :=
  { massHalo := [1], massStellar := [1], massStellarError := [1],
    massStellarScatter := [1], massStellarScatterError := [1],
    redshiftMinimum := 0, redshiftMaximum := 1 / 2 }

/-- A record whose intervals are out of order and overlapping. -/
def unordData : GalacticusSHMRData :=
  { redshift_intervals := [unordInterval1, unordInterval2],
    cosmology := create_example_cosmology, haloMassDefinition := "virial",
    label := "A", reference := "r" }

/-- An interval group that lacks `massHalo` (and three other required
datasets) while containing `massStellar`. -/
def validatorGapGroup : HGroup :=
  { attrs := [("redshiftMinimum", AttrVal.ofRat 0),
              ("redshiftMaximum", AttrVal.ofRat 1)],
    datasets := [("massStellar", { data := [1], attrs := [] })] }

/-- A file that is complete except that its single interval group lacks
four of the five required datasets (`massHalo` among them). -/
def validatorGapFile : HFile :=
  { attrs := [("haloMassDefinition", AttrVal.ofStr "virial"),
              ("label", AttrVal.ofStr "X"),
              ("reference", AttrVal.ofStr "Y")],
    groups :=
      [("cosmology",
        { attrs := [("OmegaMatter", AttrVal.ofRat 1),
                    ("OmegaDarkEnergy", AttrVal.ofRat 1),
                    ("OmegaBaryon", AttrVal.ofRat 1),
                    ("HubbleConstant", AttrVal.ofRat 1)],
          datasets := [] }),
       ("redshiftInterval0", validatorGapGroup)] }

/-- A well-formed example black-hole interval. -/
def exBHInterval : BlackHoleRedshiftInterval :=
  { massHalo := [1, 2], massBlackHole := [10, 20],
    massBlackHoleError := [1, 2], massBlackHoleScatter := [3, 4],
    massBlackHoleScatterError := [5, 6],
    redshiftMinimum := 0, redshiftMaximum := 1 / 2 }

/-- A well-formed example black-hole record. -/
def exBHData : GalacticusBHMRData :=
  { redshift_intervals := [exBHInterval],
    cosmology := create_example_cosmology,
    haloMassDefinition := "virial", label := "A", reference := "r" }

/-- Decidable equality of `Except` values (both components decidable). -/
instance {ε α : Type} [DecidableEq ε] [DecidableEq α] :
    DecidableEq (Except ε α) := fun x y =>
  match x, y with
  | .error a, .error b =>
    if h : a = b then isTrue (by rw [h]) else isFalse (by simp [h])
  | .ok a, .ok b =>
    if h : a = b then isTrue (by rw [h]) else isFalse (by simp [h])
  | .error _, .ok _ => isFalse (by simp)
  | .ok _, .error _ => isFalse (by simp)

/-! ## Basic facts about the embedded constructors and `save` -/

theorem isErr_error {ε α : Type} (e : ε) :
    isErr (α := α) (.error e) = true := rfl

theorem isErr_ok {ε α : Type} (a : α) :
    isErr (ε := ε) (.ok a) = false := rfl

/-- `save_galacticus_shmr` raises whenever the extension or the halo mass
definition check fails (shared by the enum and atomicity claims). -/
theorem save_isErr_of_invalid (fs : FileSystem) (d : GalacticusSHMRData)
    (p : String)
    (h : pySuffix p ≠ ".hdf5" ∨
         validate_halo_mass_definition d.haloMassDefinition = false) :
    isErr (save_galacticus_shmr fs d p) = true := by
  unfold save_galacticus_shmr
  split
  · rfl
  next hsuf =>
    rcases h with h | h
    · exact absurd (bne_iff_ne.mpr h) hsuf
    · simp [h, isErr]

/-! ## Claim theorems -/

/-- C2: constructing a `RedshiftInterval` (or a
`BlackHoleRedshiftInterval`) raises `ValueError` if and only if the five
data arrays do not all share one common length, and for every
successfully constructed interval `n_points` equals that common length. -/
theorem C2_parallel_array_invariant (a b c d e : List ℚ) (zmin zmax : ℚ)
    (a2 b2 c2 d2 e2 : List ℚ) (zmin2 zmax2 : ℚ) :
    (isErr (mkRedshiftInterval a b c d e zmin zmax) = true ↔
      ¬ (b.length = a.length ∧ c.length = a.length ∧ d.length = a.length ∧
         e.length = a.length)) ∧
    (∀ iv, mkRedshiftInterval a b c d e zmin zmax = .ok iv →
      iv.n_points = a.length) ∧
    (isErr (mkBlackHoleRedshiftInterval a2 b2 c2 d2 e2 zmin2 zmax2) = true ↔
      ¬ (b2.length = a2.length ∧ c2.length = a2.length ∧
         d2.length = a2.length ∧ e2.length = a2.length)) ∧
    (∀ iv, mkBlackHoleRedshiftInterval a2 b2 c2 d2 e2 zmin2 zmax2 = .ok iv →
      iv.n_points = a2.length) := by
  refine ⟨?_, ?_, ?_, ?_⟩
  · by_cases h : b.length = a.length ∧ c.length = a.length ∧
        d.length = a.length ∧ e.length = a.length <;>
      simp [mkRedshiftInterval, h, isErr]
  · intro iv hiv
    unfold mkRedshiftInterval at hiv
    split at hiv
    · cases hiv; rfl
    · cases hiv
  · by_cases h : b2.length = a2.length ∧ c2.length = a2.length ∧
        d2.length = a2.length ∧ e2.length = a2.length <;>
      simp [mkBlackHoleRedshiftInterval, h, isErr]
  · intro iv hiv
    unfold mkBlackHoleRedshiftInterval at hiv
    split at hiv
    · cases hiv; rfl
    · cases hiv

theorem C2_parallel_array_invariant_witness :
    (isErr (mkRedshiftInterval [1, 2] [3] [4, 5] [6, 7] [8, 9] 0 1) = true) ∧
    exInterval.n_points = 2 ∧
    (isErr (mkBlackHoleRedshiftInterval [1] [2] [3] [4] [5, 6] 0 1) = true) ∧
    exBHInterval.n_points = 2 := by
  refine ⟨?_, ?_, ?_, ?_⟩
  · exact (C2_parallel_array_invariant [1, 2] [3] [4, 5] [6, 7] [8, 9] 0 1
      [1] [2] [3] [4] [5, 6] 0 1).1.mpr (by decide)
  · exact (C2_parallel_array_invariant [1, 2] [10, 20] [1, 2] [3, 4] [5, 6]
      0 (1 / 2) [1] [2] [3] [4] [5, 6] 0 1).2.1 exInterval rfl
  · exact (C2_parallel_array_invariant [1, 2] [3] [4, 5] [6, 7] [8, 9] 0 1
      [1] [2] [3] [4] [5, 6] 0 1).2.2.1.mpr (by decide)
  · exact (C2_parallel_array_invariant [1] [2] [3] [4] [5] 0 1
      [1, 2] [10, 20] [1, 2] [3, 4] [5, 6] 0 (1 / 2)).2.2.2 exBHInterval rfl

/-- C5: constructing a `GalacticusSHMRData` or `GalacticusBHMRData` with
an empty interval list raises `ValueError`, so every constructed dataset
holds at least one redshift interval. -/
theorem C5_nonempty_dataset :
    (∀ (cos : GalacticusCosmology) (hmd label ref : String),
      mkGalacticusSHMRData [] cos hmd label ref =
        .error "At least one redshift interval is required" ∧
      mkGalacticusBHMRData [] cos hmd label ref =
        .error "At least one redshift interval is required") ∧
    (∀ ivs cos hmd label ref d,
      mkGalacticusSHMRData ivs cos hmd label ref = .ok d →
      d.redshift_intervals ≠ []) ∧
    (∀ ivs cos hmd label ref d,
      mkGalacticusBHMRData ivs cos hmd label ref = .ok d →
      d.redshift_intervals ≠ []) := by
  refine ⟨fun cos hmd label ref => ⟨rfl, rfl⟩, ?_, ?_⟩
  · intro ivs cos hmd label ref d hd
    unfold mkGalacticusSHMRData at hd
    split at hd
    · cases hd
    next hne =>
      split at hd
      · cases hd
      · cases hd
        intro h
        exact hne (by simp [show ivs = [] from h])
  · intro ivs cos hmd label ref d hd
    unfold mkGalacticusBHMRData at hd
    split at hd
    · cases hd
    next hne =>
      split at hd
      · cases hd
      · cases hd
        intro h
        exact hne (by simp [show ivs = [] from h])

theorem C5_nonempty_dataset_witness :
    mkGalacticusSHMRData [] create_example_cosmology "virial" "A" "r" =
      .error "At least one redshift interval is required" ∧
    exData.redshift_intervals ≠ [] ∧
    exBHData.redshift_intervals ≠ [] := by
  refine ⟨(C5_nonempty_dataset.1 create_example_cosmology "virial" "A" "r").1,
    ?_, ?_⟩
  · exact C5_nonempty_dataset.2.1 [exInterval] create_example_cosmology
      "virial" "A" "r" exData rfl
  · exact C5_nonempty_dataset.2.2 [exBHInterval] create_example_cosmology
      "virial" "A" "r" exBHData rfl

/-- C4: `validate_halo_mass_definition` is true exactly on the 9 standard
definition strings, and `save_galacticus_shmr` raises `ValueError` for
every record whose halo mass definition is not in the list. -/
theorem C4_halo_mass_definition_enum :
    (∀ s, validate_halo_mass_definition s = true ↔
      s ∈ GALACTICUS_HALO_MASS_DEFINITIONS) ∧
    GALACTICUS_HALO_MASS_DEFINITIONS.length = 9 ∧
    (∀ (fs : FileSystem) (d : GalacticusSHMRData) (p : String),
      validate_halo_mass_definition d.haloMassDefinition = false →
      isErr (save_galacticus_shmr fs d p) = true) := by
  refine ⟨?_, rfl, ?_⟩
  · intro s
    simp [validate_halo_mass_definition, List.contains, List.elem_iff]
  · intro fs d p h
    exact save_isErr_of_invalid fs d p (Or.inr h)

theorem C4_halo_mass_definition_enum_witness :
    (validate_halo_mass_definition "virial" = true) ∧
    (validate_halo_mass_definition "bogus" = false) ∧
    isErr (save_galacticus_shmr []
      { exData with haloMassDefinition := "bogus" } "out.hdf5") = true := by
  refine ⟨?_, by decide, ?_⟩
  · exact (C4_halo_mass_definition_enum.1 "virial").mpr (by decide)
  · exact C4_halo_mass_definition_enum.2.2 []
      { exData with haloMassDefinition := "bogus" } "out.hdf5" (by decide)

/-- C10: `save_galacticus_shmr` raises `ValueError` before touching the
filesystem whenever the path suffix is not exactly `.hdf5` (in
particular `.h5` is rejected) or the halo mass definition is
non-standard: the filesystem after the call is unchanged. -/
theorem C10_save_precondition_atomicity (fs : FileSystem)
    (d : GalacticusSHMRData) (p : String)
    (h : pySuffix p ≠ ".hdf5" ∨
         validate_halo_mass_definition d.haloMassDefinition = false) :
    (save_galacticus_shmr_st fs d p).1 = fs ∧
    ((save_galacticus_shmr_st fs d p).2).isSome = true := by
  have herr := save_isErr_of_invalid fs d p h
  unfold save_galacticus_shmr_st
  rcases hs : save_galacticus_shmr fs d p with e | fs2
  · exact ⟨rfl, rfl⟩
  · rw [hs] at herr
    cases herr

theorem C10_save_precondition_atomicity_witness :
    pySuffix "out.h5" = ".h5" ∧
    (save_galacticus_shmr_st [] exData "out.h5").1 = [] ∧
    ((save_galacticus_shmr_st [] exData "out.h5").2).isSome = true := by
  refine ⟨rfl, ?_⟩
  exact C10_save_precondition_atomicity [] exData "out.h5"
    (Or.inl (by decide))

/-- C6 fails on the code: the constructor accepts a record whose two
intervals are out of order and overlap (the first ends at redshift 2,
the second starts at redshift 0). -/
theorem C6_counterexample :
    mkGalacticusSHMRData [unordInterval1, unordInterval2]
      create_example_cosmology "virial" "A" "r" = .ok unordData ∧
    ¬ intervalsOrdered unordData.redshift_intervals := by
  refine ⟨rfl, ?_⟩
  intro hord
  unfold intervalsOrdered at hord
  rw [show unordData.redshift_intervals = [unordInterval1, unordInterval2]
    from rfl, List.chain'_cons] at hord
  have h2 := hord.1
  have : (2 : ℚ) ≤ 0 := h2
  norm_num at this

/-- C6 (amended): interval ordering is a convention, not an enforced
invariant — neither `GalacticusSHMRData.__post_init__` nor (hence)
`load_galacticus_shmr` checks it.  Construction checks only
non-emptiness of the interval list and the label, and accepts any
interval list unchanged, ordered or not. -/
theorem C6_ordering_not_enforced (ivs : List RedshiftInterval)
    (cos : GalacticusCosmology) (hmd label ref : String)
    (h1 : ivs ≠ []) (h2 : labelOk label = true) :
    mkGalacticusSHMRData ivs cos hmd label ref =
      .ok { redshift_intervals := ivs, cosmology := cos,
            haloMassDefinition := hmd, label := label, reference := ref } := by
  unfold mkGalacticusSHMRData
  rw [if_neg (by simp [List.isEmpty_iff, h1]), if_neg (by simp [h2])]

theorem C6_ordering_not_enforced_witness :
    mkGalacticusSHMRData [unordInterval1, unordInterval2]
      create_example_cosmology "virial" "A" "r" =
      .ok { redshift_intervals := [unordInterval1, unordInterval2],
            cosmology := create_example_cosmology,
            haloMassDefinition := "virial", label := "A", reference := "r" } :=
  C6_ordering_not_enforced [unordInterval1, unordInterval2]
    create_example_cosmology "virial" "A" "r" (by decide) (by decide)

theorem bindE_eq_ok {α β : Type} {x : Except String α}
    {f : α → Except String β} {b : β} (h : bindE x f = .ok b) :
    ∃ a, x = .ok a ∧ f a = .ok b := by
  cases x with
  | error e => simp [bindE] at h
  | ok a => exact ⟨a, rfl, h⟩

theorem mk_label_eq {ivs : List RedshiftInterval} {cos : GalacticusCosmology}
    {hmd label ref : String} {d : GalacticusSHMRData}
    (h : mkGalacticusSHMRData ivs cos hmd label ref = .ok d) :
    d.label = label := by
  unfold mkGalacticusSHMRData at h
  split at h
  · cases h
  · split at h
    · cases h
    · cases h; rfl

theorem append_interpolated_ne (s : String) : s ++ "_interpolated" ≠ s := by
  intro h
  have hl := congrArg String.length h
  have h13 : ("_interpolated" : String).length = 13 := rfl
  rw [String.length_append, h13] at hl
  omega

/-- C7: the operations consuming a constructed record
(`save_galacticus_shmr`, `interpolate_shmr`, and the three property
accessors) leave the record unchanged, and `interpolate_shmr` returns a
new record (its label gains the `_interpolated` suffix) rather than
modifying its input. -/
theorem C7_no_mutation (fs : FileSystem) (d : GalacticusSHMRData)
    (p : String) (m : List ℚ) (i : ℕ) (e : Bool) :
    (save_galacticus_shmr_rec_st fs d p).2 = d ∧
    (n_redshift_intervals_st d).2 = d ∧
    (total_data_points_st d).2 = d ∧
    (redshift_range_st d).2 = d ∧
    (interpolate_shmr_st d m i e).2 = d ∧
    (∀ d2, (interpolate_shmr_st d m i e).1 = .ok d2 →
      d2 ≠ d ∧ d2.label = d.label ++ "_interpolated") := by
  refine ⟨rfl, rfl, rfl, rfl, rfl, ?_⟩
  intro d2 h
  have hlab : d2.label = d.label ++ "_interpolated" := by
    change interpolate_shmr d m i e = .ok d2 at h
    unfold interpolate_shmr at h
    split at h
    · cases h
    · obtain ⟨a1, _, h⟩ := bindE_eq_ok h
      obtain ⟨a2, _, h⟩ := bindE_eq_ok h
      obtain ⟨a3, _, h⟩ := bindE_eq_ok h
      obtain ⟨a4, _, h⟩ := bindE_eq_ok h
      obtain ⟨a5, _, h⟩ := bindE_eq_ok h
      exact mk_label_eq h
  refine ⟨?_, hlab⟩
  intro heq
  rw [heq] at hlab
  exact append_interpolated_ne d.label hlab.symm

theorem C7_no_mutation_witness :
    (interpolate_shmr_st exData [3 / 2] 0 false).1 = .ok exInterp ∧
    exInterp ≠ exData ∧
    (interpolate_shmr_st exData [3 / 2] 0 false).2 = exData := by
  have h1 : (interpolate_shmr_st exData [3 / 2] 0 false).1 = .ok exInterp :=
    by decide
  exact ⟨h1,
    ((C7_no_mutation [] exData "p" [3 / 2] 0 false).2.2.2.2.2 exInterp h1).1,
    (C7_no_mutation [] exData "p" [3 / 2] 0 false).2.2.2.2.1⟩

/-- C8: for every array of positive halo masses, `double_powerlaw_shmr`
returns, elementwise, `ms_norm * (M/mh_norm)^alpha_low` for entries
strictly below `mh_norm` and `ms_norm * (M/mh_norm)^alpha_high` for
entries at or above it, each output entry depending only on the
corresponding input entry. -/
theorem C8_double_powerlaw_closed_form (halo_mass : List ℝ)
    (ms_norm mh_norm alpha_low alpha_high : ℝ)
    (hpos : ∀ m ∈ halo_mass, 0 < m) :
    double_powerlaw_shmr halo_mass ms_norm mh_norm alpha_low alpha_high =
      halo_mass.map (fun m =>
        if m < mh_norm then ms_norm * (m / mh_norm) ^ alpha_low
        else ms_norm * (m / mh_norm) ^ alpha_high) := by
  induction halo_mass with
  | nil => rfl
  | cons m l ih =>
    have ihl := ih (fun x hx => hpos x (List.mem_cons_of_mem m hx))
    have step : double_powerlaw_shmr (m :: l) ms_norm mh_norm alpha_low
        alpha_high =
        (if mh_norm ≤ m then ms_norm * (m / mh_norm) ^ alpha_high
         else if m < mh_norm then ms_norm * (m / mh_norm) ^ alpha_low
         else 0) ::
        double_powerlaw_shmr l ms_norm mh_norm alpha_low alpha_high := rfl
    rw [step, List.map_cons, ihl]
    congr 1
    rcases le_or_lt mh_norm m with hle | hlt
    · rw [if_pos hle, if_neg (not_lt.mpr hle)]
    · rw [if_neg (not_le.mpr hlt), if_pos hlt, if_pos hlt]

theorem C8_double_powerlaw_closed_form_witness :
    (∀ m ∈ [(2 : ℝ)], 0 < m) ∧
    double_powerlaw_shmr [(2 : ℝ)] 1 4 1 (-1) =
      [(2 : ℝ)].map (fun m =>
        if m < 4 then 1 * (m / 4) ^ (1 : ℝ)
        else 1 * (m / 4) ^ (-1 : ℝ)) := by
  have h : ∀ m ∈ [(2 : ℝ)], 0 < m := by
    intro m hm
    rw [List.mem_singleton] at hm
    rw [hm]
    norm_num
  exact ⟨h, C8_double_powerlaw_closed_form [(2 : ℝ)] 1 4 1 (-1) h⟩

/-! ## Invariant preservation through the validator -/

theorem VOk_addError (r : VResults) (m : String) : VOk (addError r m) := by
  simp [VOk, addError]

theorem VOk_addWarning (r : VResults) (m : String) (h : VOk r) :
    VOk (addWarning r m) := by
  simpa [VOk, addWarning] using h

theorem VOk_foldl {α : Type} (f : VResults → α → VResults)
    (hf : ∀ r a, VOk r → VOk (f r a)) (l : List α) (r : VResults)
    (h : VOk r) : VOk (List.foldl f r l) := by
  induction l generalizing r with
  | nil => exact h
  | cons a l ih => exact ih (f r a) (hf r a h)

theorem VOk_checkTopAttrs (f : HFile) (r : VResults) (h : VOk r) :
    VOk (checkTopAttrs f r) := by
  refine VOk_foldl _ ?_ _ r h
  intro r a hr
  split
  · exact VOk_addError _ _
  · exact hr

theorem VOk_checkHaloDef (f : HFile) (r : VResults) (h : VOk r) :
    VOk (checkHaloDef f r) := by
  unfold checkHaloDef
  split
  · split
    · exact VOk_addWarning _ _ h
    · exact h
  · exact h

theorem VOk_checkCosmology (f : HFile) (r : VResults) (h : VOk r) :
    VOk (checkCosmology f r) := by
  unfold checkCosmology
  split
  · exact VOk_addError _ _
  · refine VOk_foldl _ ?_ _ r h
    intro r a hr
    split
    · exact VOk_addError _ _
    · exact hr

theorem VOk_checkDatasetAttrWarnings (gname dsname : String) (ds : HDataset)
    (r : VResults) (h : VOk r) :
    VOk (checkDatasetAttrWarnings gname dsname ds r) := by
  unfold checkDatasetAttrWarnings
  split
  · split
    · exact VOk_addWarning _ _ (VOk_addWarning _ _ h)
    · exact VOk_addWarning _ _ h
  · split
    · exact VOk_addWarning _ _ h
    · exact h

theorem VOk_checkDataset (gname : String) (g : HGroup)
    (st : VResults × Option ℕ) (dsname : String) (h : VOk st.1) :
    (∀ st2, checkDataset gname g st dsname = .ok st2 → VOk st2.1) ∧
    (∀ r2, checkDataset gname g st dsname = .error r2 → VOk r2) := by
  constructor
  · intro st2 h2
    unfold checkDataset at h2
    split at h2
    · cases h2
      exact VOk_addError _ _
    · split at h2
      · cases h2
        exact VOk_checkDatasetAttrWarnings _ _ _ _ h
      · split at h2
        · cases h2
        · cases h2
          refine VOk_checkDatasetAttrWarnings _ _ _ _ ?_
          split
          · exact VOk_addError _ _
          · exact h
  · intro r2 h2
    unfold checkDataset at h2
    split at h2
    · cases h2
    · split at h2
      · cases h2
      · split at h2
        · cases h2
          exact h
        · cases h2

theorem VOk_foldExcept {α : Type}
    (f : VResults × Option ℕ → α → Except VResults (VResults × Option ℕ))
    (hf : ∀ st a, VOk st.1 →
      (∀ st2, f st a = .ok st2 → VOk st2.1) ∧
      (∀ r2, f st a = .error r2 → VOk r2))
    (l : List α) (st : VResults × Option ℕ) (h : VOk st.1) :
    (∀ st2, foldExcept f st l = .ok st2 → VOk st2.1) ∧
    (∀ r2, foldExcept f st l = .error r2 → VOk r2) := by
  induction l generalizing st with
  | nil =>
    constructor
    · intro st2 h2
      cases h2
      exact h
    · intro r2 h2
      cases h2
  | cons a l ih =>
    constructor
    · intro st2 h2
      unfold foldExcept at h2
      split at h2
      · cases h2
      · rename_i s2 hfa
        exact (ih s2 ((hf st a h).1 s2 hfa)).1 st2 h2
    · intro r2 h2
      unfold foldExcept at h2
      split at h2
      · rename_i e hfa
        cases h2
        exact (hf st a h).2 _ hfa
      · rename_i s2 hfa
        exact (ih s2 ((hf st a h).1 s2 hfa)).2 r2 h2

theorem VOk_checkGroup (st : VResults × Option ℕ) (p : String × HGroup)
    (h : VOk st.1) :
    (∀ st2, checkGroup st p = .ok st2 → VOk st2.1) ∧
    (∀ r2, checkGroup st p = .error r2 → VOk r2) := by
  unfold checkGroup
  refine VOk_foldExcept _ (fun st2 ds h2 => VOk_checkDataset _ _ st2 ds h2)
    _ _ ?_
  refine VOk_foldl _ ?_ _ st.1 h
  intro r a hr
  split
  · exact VOk_addError _ _
  · exact hr

theorem VOk_validatePrelim (f : HFile) : VOk (validatePrelim f) := by
  unfold validatePrelim
  have h0 : VOk { valid := true, errors := [], warnings := [] } := by
    simp [VOk]
  split
  · exact VOk_addError _ _
  · exact VOk_checkCosmology _ _ (VOk_checkHaloDef _ _
      (VOk_checkTopAttrs _ _ h0))

/-- C9: `validate_galacticus_file` is total: on every input it returns a
result whose valid flag is true exactly when the error list is empty,
and a missing file yields valid = false with a `File not found` message
appended. -/
theorem C9_validator_totality (filepath : String) (fs : FileSystem) :
    ((validate_galacticus_file filepath fs).valid = true ↔
      (validate_galacticus_file filepath fs).errors = []) ∧
    (fsGet fs filepath = none →
      (validate_galacticus_file filepath fs).valid = false ∧
      ("File not found: " ++ filepath) ∈
        (validate_galacticus_file filepath fs).errors) := by
  constructor
  · show VOk (validate_galacticus_file filepath fs)
    unfold validate_galacticus_file
    split
    · simp [VOk]
    · rename_i f2 hg
      split
      · rename_i r2 o hfold
        exact (VOk_foldExcept checkGroup
          (fun st a h => VOk_checkGroup st a h) _
          (validatePrelim f2, none) (VOk_validatePrelim f2)).1 (r2, o) hfold
      · exact VOk_addError _ _
  · intro hnone
    unfold validate_galacticus_file
    rw [hnone]
    exact ⟨rfl, by simp⟩

theorem C9_validator_totality_witness :
    ((validate_galacticus_file "missing.hdf5" []).valid = true ↔
      (validate_galacticus_file "missing.hdf5" []).errors = []) ∧
    (validate_galacticus_file "missing.hdf5" []).valid = false ∧
    ("File not found: " ++ "missing.hdf5") ∈
      (validate_galacticus_file "missing.hdf5" []).errors := by
  refine ⟨(C9_validator_totality "missing.hdf5" []).1, ?_⟩
  exact (C9_validator_totality "missing.hdf5" []).2 rfl

/-- C3: the validator has a gap: on a file whose interval group lacks
`massHalo` (and three other required datasets) while containing
`massStellar`, the dataset loop compares a length against the unbound
local `expected_length`, raising `NameError`; the remaining dataset
checks are skipped, so the missing required dataset `massStellarError`
produces no corresponding message — only a generic read-error entry. -/
theorem C3_validator_gap :
    alistFind validatorGapGroup.datasets "massStellarError" = none ∧
    validate_galacticus_file "f.hdf5" [("f.hdf5", validatorGapFile)] =
      { valid := false,
        errors := ["Missing dataset massHalo in redshiftInterval0",
          "Error reading file: name \x27expected_length\x27 is not defined"],
        warnings := [] } ∧
    "Missing dataset massStellarError in redshiftInterval0" ∉
      (validate_galacticus_file "f.hdf5"
        [("f.hdf5", validatorGapFile)]).errors := by
  refine ⟨rfl, by decide, by decide⟩

/-! ## Decimal rendering and parsing of interval indices -/

theorem isPrefixOf_append_self (p t : List Char) :
    p.isPrefixOf (p ++ t) = true := by
  induction p with
  | nil => simp
  | cons c cs ih => simp [List.isPrefixOf_cons₂, ih]

theorem digitChar_isDigit {d : ℕ} (h : d < 10) :
    (digitChar d).isDigit = true := by
  interval_cases d <;> decide

theorem digitChar_toNat {d : ℕ} (h : d < 10) :
    (digitChar d).toNat = 48 + d := by
  interval_cases d <;> decide

theorem natDigits_all_digit (n : ℕ) :
    ∀ c ∈ natDigits n, c.isDigit = true := by
  induction n using Nat.strong_induction_on with
  | _ n ih =>
    unfold natDigits
    split
    · rename_i h
      intro c hc
      rw [List.mem_singleton] at hc
      subst hc
      exact digitChar_isDigit h
    · rename_i h
      intro c hc
      rw [List.mem_append] at hc
      rcases hc with hc | hc
      · exact ih (n / 10) (by omega) c hc
      · rw [List.mem_singleton] at hc
        subst hc
        exact digitChar_isDigit (Nat.mod_lt _ (by omega))

theorem natDigits_ne_nil (n : ℕ) : natDigits n ≠ [] := by
  unfold natDigits
  split
  · simp
  · simp

theorem parseDigits_append_digit (s : List Char) (c : Char) :
    parseDigits (s ++ [c]) = 10 * parseDigits s + (c.toNat - 48) := by
  simp [parseDigits, List.foldl_append]

theorem parseDigits_natDigits (n : ℕ) : parseDigits (natDigits n) = n := by
  induction n using Nat.strong_induction_on with
  | _ n ih =>
    unfold natDigits
    split
    · rename_i h
      simp [parseDigits, digitChar_toNat h]
    · rename_i h
      rw [parseDigits_append_digit, ih (n / 10) (by omega),
        digitChar_toNat (Nat.mod_lt _ (by omega))]
      omega

theorem pyParseNat_natDigits (n : ℕ) : pyParseNat (natDigits n) = some n := by
  have h1 : (natDigits n).isEmpty = false := by
    simp [List.isEmpty_eq_false, natDigits_ne_nil]
  have h2 : (natDigits n).all Char.isDigit = true := by
    rw [List.all_eq_true]
    exact natDigits_all_digit n
  unfold pyParseNat
  rw [if_pos (by rw [h1, h2]; rfl)]
  rw [parseDigits_natDigits]

theorem pyReplaceRSI_cons (c : Char) (cs : List Char) :
    pyReplaceRSI (c :: cs) =
      if rsiPattern.isPrefixOf (c :: cs) then pyReplaceRSI (List.drop 15 cs)
      else c :: pyReplaceRSI cs := by
  simp only [pyReplaceRSI]

theorem pyReplaceRSI_append (t : List Char) :
    pyReplaceRSI (rsiPattern ++ t) = pyReplaceRSI t := by
  have h3 : rsiPattern ++ t = 'r' :: ("edshiftInterval".data ++ t) := rfl
  have hpre : rsiPattern.isPrefixOf ('r' :: ("edshiftInterval".data ++ t)) =
      true := by
    rw [← h3]
    exact isPrefixOf_append_self rsiPattern t
  rw [h3, pyReplaceRSI_cons, if_pos hpre,
    show (15 : ℕ) = ("edshiftInterval".data).length from rfl, List.drop_left]

theorem pyReplaceRSI_digits (t : List Char)
    (h : ∀ c ∈ t, c.isDigit = true) : pyReplaceRSI t = t := by
  induction t with
  | nil => simp only [pyReplaceRSI]
  | cons c cs ih =>
    have hcond : ¬ (rsiPattern.isPrefixOf (c :: cs) = true) := by
      intro hpre
      rw [show rsiPattern = 'r' :: "edshiftInterval".data from rfl,
        List.isPrefixOf_cons₂] at hpre
      rw [Bool.and_eq_true] at hpre
      have h1 : c = 'r' := (beq_iff_eq.mp hpre.1).symm
      have hc := h c (List.mem_cons_self c cs)
      rw [h1] at hc
      cases hc
    rw [pyReplaceRSI_cons, if_neg hcond,
      ih (fun x hx => h x (List.mem_cons_of_mem c hx))]

theorem intervalKey_render (i : ℕ) :
    intervalKey ("redshiftInterval" ++ natToStr i) = some i := by
  have hdata : ("redshiftInterval" ++ natToStr i).data =
      rsiPattern ++ natDigits i := by
    rw [String.data_append]
    rfl
  unfold intervalKey
  rw [hdata, pyReplaceRSI_append,
    pyReplaceRSI_digits _ (natDigits_all_digit i), pyParseNat_natDigits]

/-! ## Sorting already-sorted keyed lists -/

theorem insertByKey_head {α β : Type} [LinearOrder β] (key : α → β) (a : α)
    (l : List α) (h : ∀ b ∈ l, key a < key b) :
    insertByKey key a l = a :: l := by
  cases l with
  | nil => rfl
  | cons b l =>
    unfold insertByKey
    rw [if_pos (h b (List.mem_cons_self b l))]

theorem sortByKey_sorted {α β : Type} [LinearOrder β] (key : α → β)
    (l : List α) (h : List.Pairwise (fun x y => key x < key y) l) :
    sortByKey key l = l := by
  induction l with
  | nil => rfl
  | cons a l ih =>
    rw [List.pairwise_cons] at h
    unfold sortByKey
    rw [ih h.2, insertByKey_head key a l h.1]

theorem keyedRender_keys_ge (i : ℕ) (l : List RedshiftInterval) :
    ∀ q ∈ keyedRender i l, i ≤ q.1 := by
  induction l generalizing i with
  | nil =>
    intro q hq
    cases hq
  | cons iv rest ih =>
    intro q hq
    unfold keyedRender at hq
    rcases List.mem_cons.mp hq with hq | hq
    · subst hq
      exact le_refl i
    · have := ih (i + 1) q hq
      omega

theorem keyedRender_pairwise (i : ℕ) (l : List RedshiftInterval) :
    List.Pairwise (fun x y => x.1 < y.1) (keyedRender i l) := by
  induction l generalizing i with
  | nil => exact List.Pairwise.nil
  | cons iv rest ih =>
    unfold keyedRender
    refine List.Pairwise.cons ?_ (ih (i + 1))
    intro q hq
    have := keyedRender_keys_ge (i + 1) rest q hq
    show i < q.1
    omega

/-! ## Reading back what `save_galacticus_shmr` wrote -/

theorem filter_renderIntervals (i : ℕ) (l : List RedshiftInterval) :
    (renderIntervals i l).filter
      (fun p => pyStartsWith p.1 "redshiftInterval") = renderIntervals i l := by
  induction l generalizing i with
  | nil => rfl
  | cons iv rest ih =>
    have hcond : pyStartsWith ("redshiftInterval" ++ natToStr i)
        "redshiftInterval" = true := by
      unfold pyStartsWith
      rw [String.data_append]
      exact isPrefixOf_append_self _ _
    unfold renderIntervals
    rw [List.filter_cons, if_pos hcond, ih (i + 1)]

theorem mapExcept_key_render (i : ℕ) (l : List RedshiftInterval) :
    mapExcept (fun p =>
      match intervalKey p.1 with
      | some k => Except.ok (k, p.2)
      | none => Except.error "invalid literal for int()")
      (renderIntervals i l) = .ok (keyedRender i l) := by
  induction l generalizing i with
  | nil => rfl
  | cons iv rest ih =>
    unfold renderIntervals keyedRender mapExcept
    simp [bindE, intervalKey_render i, ih (i + 1)]

theorem readInterval_render (iv : RedshiftInterval) (h : iv.Wf) :
    readInterval (renderInterval iv) = .ok iv := by
  obtain ⟨h1, h2, h3, h4⟩ := h
  have hred : readInterval (renderInterval iv) =
      mkRedshiftInterval iv.massHalo iv.massStellar iv.massStellarError
        iv.massStellarScatter iv.massStellarScatterError
        iv.redshiftMinimum iv.redshiftMaximum := rfl
  rw [hred]
  unfold mkRedshiftInterval
  rw [if_pos ⟨h1, h2, h3, h4⟩]

theorem mapExcept_read_keyed (i : ℕ) (l : List RedshiftInterval)
    (h : ∀ iv ∈ l, iv.Wf) :
    mapExcept (fun q : ℕ × HGroup => readInterval q.2) (keyedRender i l) =
      .ok l := by
  induction l generalizing i with
  | nil => rfl
  | cons iv rest ih =>
    unfold keyedRender mapExcept
    simp [bindE, readInterval_render iv (h iv (List.mem_cons_self _ _)),
      ih (i + 1) (fun x hx => h x (List.mem_cons_of_mem _ hx))]

theorem mk_of_wf (d : GalacticusSHMRData) (hne : d.redshift_intervals ≠ [])
    (hlab : labelOk d.label = true) :
    mkGalacticusSHMRData d.redshift_intervals d.cosmology
      d.haloMassDefinition d.label d.reference = .ok d := by
  unfold mkGalacticusSHMRData
  rw [if_neg (by simp [List.isEmpty_iff, hne]), if_neg (by simp [hlab])]

theorem load_renderFile (fs : FileSystem) (d : GalacticusSHMRData)
    (p : String) (hwf : d.Wf) :
    load_galacticus_shmr (fsSet fs p (renderFile d)) p = .ok d := by
  obtain ⟨hne, hlab, hivs⟩ := hwf
  have hget : fsGet (fsSet fs p (renderFile d)) p = some (renderFile d) := by
    simp [fsGet, fsSet, alistFind]
  have hcosmo : pyStartsWith "cosmology" "redshiftInterval" = false := by
    decide
  unfold load_galacticus_shmr
  rw [hget]
  show bindE (mapExcept (fun p =>
      match intervalKey p.1 with
      | some k => Except.ok (k, p.2)
      | none => Except.error "invalid literal for int()")
      ((renderIntervals 0 d.redshift_intervals).filter
        (fun p => pyStartsWith p.1 "redshiftInterval")))
    (fun keyed => bindE (mapExcept (fun q => readInterval q.2)
        (sortByKey Prod.fst keyed))
      (fun redshift_intervals => mkGalacticusSHMRData redshift_intervals
        { OmegaMatter := d.cosmology.OmegaMatter,
          OmegaDarkEnergy := d.cosmology.OmegaDarkEnergy,
          OmegaBaryon := d.cosmology.OmegaBaryon,
          HubbleConstant := d.cosmology.HubbleConstant }
        d.haloMassDefinition d.label d.reference)) = .ok d
  rw [filter_renderIntervals 0, mapExcept_key_render 0]
  simp only [bindE]
  rw [sortByKey_sorted Prod.fst (keyedRender 0 d.redshift_intervals)
    (keyedRender_pairwise 0 d.redshift_intervals),
    mapExcept_read_keyed 0 d.redshift_intervals hivs]
  simp only [bindE]
  exact mk_of_wf d hne hlab

/-- C1: round-trip of the serializer: a record with a standard halo mass
definition, saved to a path with suffix `.hdf5`, is reproduced exactly by
`load_galacticus_shmr` — same label, reference, halo mass definition,
cosmology parameters, and the same redshift intervals in the same order
with elementwise-equal data arrays. -/
theorem C1_save_load_round_trip (fs : FileSystem) (d : GalacticusSHMRData)
    (p : String) (hwf : d.Wf)
    (hhmd : d.haloMassDefinition ∈ GALACTICUS_HALO_MASS_DEFINITIONS)
    (hsuf : pySuffix p = ".hdf5") :
    save_galacticus_shmr fs d p = .ok (fsSet fs p (renderFile d)) ∧
    load_galacticus_shmr (fsSet fs p (renderFile d)) p = .ok d := by
  constructor
  · have hv : validate_halo_mass_definition d.haloMassDefinition = true := by
      simp [validate_halo_mass_definition, List.contains, List.elem_iff, hhmd]
    unfold save_galacticus_shmr
    rw [if_neg (by simp [hsuf]), if_neg (by simp [hv])]
  · exact load_renderFile fs d p hwf

theorem C1_save_load_round_trip_witness :
    exData.Wf ∧
    exData.haloMassDefinition ∈ GALACTICUS_HALO_MASS_DEFINITIONS ∧
    pySuffix "out.hdf5" = ".hdf5" ∧
    save_galacticus_shmr [] exData "out.hdf5" =
      .ok (fsSet [] "out.hdf5" (renderFile exData)) ∧
    load_galacticus_shmr (fsSet [] "out.hdf5" (renderFile exData))
      "out.hdf5" = .ok exData := by
  have hwf : exData.Wf := by
    refine ⟨by decide, by decide, ?_⟩
    intro iv hiv
    have hiv2 : iv ∈ [exInterval] := hiv
    rw [List.mem_singleton] at hiv2
    subst hiv2
    exact ⟨rfl, rfl, rfl, rfl⟩
  have hhmd : exData.haloMassDefinition ∈ GALACTICUS_HALO_MASS_DEFINITIONS :=
    by decide
  have hsuf : pySuffix "out.hdf5" = ".hdf5" := by decide
  exact ⟨hwf, hhmd, hsuf,
    C1_save_load_round_trip [] exData "out.hdf5" hwf hhmd hsuf⟩

end ShmrDatasets
